import Mathlib

/-!
Verification of the l1x-cargo-sde-tools transaction-submission, signing,
address-resolution and registry subsystem against its natural-language
specification.

The Rust source is shallowly embedded:
  * machine integers (u8, u64, u128) become `Nat`;
  * byte vectors become `List Nat`;
  * fallible Rust code returning `Result` becomes `Except String`;
  * a Rust `panic!` in library code is modelled as a fatal `Except.error`
    (it aborts the flow and, in particular, never reaches a later file write);
  * JSON-RPC network round-trips are modelled by an oracle record that
    supplies, for each round-trip a flow performs, the result the external
    node/transport produced (transport or parse failure as `Except.error`);
  * the on-disk YAML registry file is modelled as
    `Option L1XVMContractAddressRegistry` (`none` = the file is absent or
    unreadable), and each flow returns the registry file state it leaves
    behind;
  * cryptographic primitives from external crates (secp256k1 ECDSA, SHA-256,
    the `l1x_rpc` protocol signer) are modelled by injective constructors
    that record exactly which canonicalization of which data was signed.
-/

/-! ### Small string/byte helpers (hex crate, serde display conventions) -/

/-- The double-quote character (ASCII 34). -/
def quoteChar : Char := Char.ofNat 34

/-- The double-quote as a one-character string. -/
def dq : String := "\x22"

/-- Left curly brace as a string. -/
def lbrace : String := "\x7b"

/-- Right curly brace as a string. -/
def rbrace : String := "\x7d"

/-- Value of one hex digit character, `none` if the character is not a hex
digit.  Mirrors the `hex` crate's accepted alphabet (0-9, a-f, A-F). -/
def hexDigitVal (c : Char) : Option Nat :=
  if 48 ≤ c.toNat ∧ c.toNat ≤ 57 then some (c.toNat - 48)
  else if 97 ≤ c.toNat ∧ c.toNat ≤ 102 then some (c.toNat - 87)
  else if 65 ≤ c.toNat ∧ c.toNat ≤ 70 then some (c.toNat - 55)
  else none

/-- `true` iff `c` is a hex digit. -/
def isHexDigitChar (c : Char) : Bool := (hexDigitVal c).isSome

/-- `hex::decode` on a list of characters: pairs of hex digits to bytes,
odd length or a non-hex character is an error. -/
def hexDecodeList : List Char → Except String (List Nat)
  | [] => .ok []
  | [_] => .error "hex decode: odd number of digits"
  | c1 :: c2 :: rest =>
    match hexDigitVal c1, hexDigitVal c2, hexDecodeList rest with
    | some hi, some lo, .ok bs => .ok ((hi * 16 + lo) :: bs)
    | _, _, _ => .error "hex decode: invalid hex"

/-- `hex::decode` on a string. -/
def hexDecode (s : String) : Except String (List Nat) := hexDecodeList s.data

/-- Character for a value in 0..15 (lowercase, as the `hex` crate emits). -/
def hexDigitOf (n : Nat) : Char :=
  if n < 10 then Char.ofNat (48 + n) else Char.ofNat (87 + n)

/-- `hex::encode`: each byte as two lowercase hex digits. -/
def hexEncode (bs : List Nat) : String :=
  String.mk (bs.foldr
    (fun b acc => hexDigitOf (b % 256 / 16) :: hexDigitOf (b % 16) :: acc) [])

/-- Comma-separated concatenation (serde_json compact array separator). -/
def joinWithComma : List String → String
  | [] => ""
  | [s] => s
  | s :: s2 :: rest => s ++ "," ++ joinWithComma (s2 :: rest)

/-! ### Address normalization (`clean_address_string` / `clean_string`)

`toolkit_config.rs` and `contract_sub_txn.rs` each contain a copy of the
same normalization: Rust `str::trim` (strip whitespace from both ends),
`trim_matches('"')` (strip all quotes from both ends), then
`strip_prefix("0x")` falling back to the unstripped string. -/

/-- Whitespace as recognised by the trims we need (space, tab, LF, CR). -/
def isWsChar (c : Char) : Bool :=
  c = ' ' || c = '\t' || c = '\n' || c = '\r'

/-- Drop matching characters from the end of a list. -/
def dropTrailing (p : Char → Bool) (l : List Char) : List Char :=
  (l.reverse.dropWhile p).reverse

/-- Drop matching characters from both ends (Rust `trim_matches`). -/
def trimBothWith (p : Char → Bool) (l : List Char) : List Char :=
  dropTrailing p (l.dropWhile p)

/-- Rust `str::trim` on a character list. -/
def rustTrim (l : List Char) : List Char := trimBothWith isWsChar l

/-- Rust `str::trim_matches('"')` on a character list. -/
def rustTrimQuotes (l : List Char) : List Char :=
  trimBothWith (fun c => c = quoteChar) l

/-- Rust `strip_prefix("0x").unwrap_or(original)` on a character list. -/
def rustStrip0x (l : List Char) : List Char :=
  match l with
  | c1 :: c2 :: rest => if c1 = '0' ∧ c2 = 'x' then rest else c1 :: c2 :: rest
  | l => l

/-- Core of both normalizers: trim, strip quotes, strip one `0x`. -/
def cleanCore (l : List Char) : List Char :=
  rustStrip0x (rustTrimQuotes (rustTrim l))

/-- `toolkit_config.rs::clean_address_string`. -/
def clean_address_string (address_to_clean : String) : String :=
  String.mk (cleanCore address_to_clean.data)

/-- `contract_sub_txn.rs::L1XVmTxnExecutor::clean_string` (an identical
copy of `clean_address_string`). -/
def clean_string (address_to_clean : String) : String :=
  String.mk (cleanCore address_to_clean.data)

/-! ### The persisted address registry (`toolkit_config.rs`)

`BTreeMap<String, _>` is modelled as an association list with
insert-or-replace semantics (`AssocMap.insert` replaces the value at an
existing key in place and appends otherwise); all claims about the registry
are lookup-based, so key ordering of the serialized YAML is immaterial. -/

/-- Association-list map. -/
abbrev AssocMap (α β : Type) := List (α × β)

/-- First-match lookup. -/
def AssocMap.find? {α β : Type} [DecidableEq α] :
    AssocMap α β → α → Option β
  | [], _ => none
  | (k', v) :: rest, k => if k' = k then some v else AssocMap.find? rest k

/-- Insert-or-replace (the observable behaviour of `BTreeMap::insert`). -/
def AssocMap.insert {α β : Type} [DecidableEq α] :
    AssocMap α β → α → β → AssocMap α β
  | [], k, v => [(k, v)]
  | (k', v') :: rest, k, v =>
    if k' = k then (k, v) :: rest
    else (k', v') :: AssocMap.insert rest k v

/-- `toolkit_config.rs::L1XVMInstanceInfo`. -/
structure L1XVMInstanceInfo where
  inst_hash : String
  inst_address : String
deriving DecidableEq, Repr

/-- `toolkit_config.rs::L1XVMContractInfo` (the Rust field `instance` is a
Lean keyword, rendered here as `instances`). -/
structure L1XVMContractInfo where
  deploy_hash : String
  deploy_address : String
  instances : AssocMap String L1XVMInstanceInfo
deriving DecidableEq, Repr

/-- `toolkit_config.rs::L1XVMContractAddressRegistry`. -/
structure L1XVMContractAddressRegistry where
  l1x_vm : AssocMap String L1XVMContractInfo
  l1x_evm : AssocMap String L1XVMContractInfo
deriving DecidableEq, Repr

/-- The fresh empty registry built when the YAML file cannot be read. -/
def emptyRegistry : L1XVMContractAddressRegistry :=
  { l1x_vm := [], l1x_evm := [] }

/-- `toolkit_config.rs::L1XVMContractAddressUpdateType`. -/
inductive L1XVMContractAddressUpdateType
  | L1XEBPF_DEPLOY (artifact_id response_hash response_address : String)
  | L1XEBPF_INIT
      (artifact_id contract_id response_hash response_address : String)
  | L1XEVM_DEPLOY (artifact_id response_hash response_address : String)
deriving DecidableEq, Repr

/-- `toolkit_config.rs::update_toolkit_contract_address_registry`.

`file` is the parsed content of the registry YAML file (`none` if the file
is absent, in which case the code starts from a fresh empty registry).
`.ok config` means the function serialized `config` back to the file;
`.error _` models the `panic!` in the `L1XEBPF_INIT` arm when the artifact
has no deploy entry — the process aborts before the file is rewritten. -/
def update_toolkit_contract_address_registry
    (file : Option L1XVMContractAddressRegistry)
    (update_type : L1XVMContractAddressUpdateType) :
    Except String L1XVMContractAddressRegistry :=
  let config := match file with
    | some c => c
    | none => emptyRegistry
  match update_type with
  | .L1XEBPF_DEPLOY artifact_id response_hash response_address =>
    let contract_info : L1XVMContractInfo :=
      { deploy_hash := response_hash,
        deploy_address := dq ++ "0x" ++ response_address ++ dq,
        instances := [] }
    .ok { config with
          l1x_vm := config.l1x_vm.insert artifact_id contract_info }
  | .L1XEBPF_INIT artifact_id contract_id response_hash response_address =>
    match config.l1x_vm.find? artifact_id with
    | some contract_info =>
      let instance_info : L1XVMInstanceInfo :=
        { inst_hash := response_hash,
          inst_address := dq ++ "0x" ++ response_address ++ dq }
      .ok { config with
            l1x_vm := config.l1x_vm.insert artifact_id
              { contract_info with
                instances :=
                  contract_info.instances.insert contract_id instance_info } }
    | none =>
      .error ("Failed to update Contract Address Registry :: Contract Deploy Info is missing for :: "
        ++ artifact_id)
  | .L1XEVM_DEPLOY artifact_id response_hash response_address =>
    let response_address_clean := clean_address_string response_address
    let contract_info : L1XVMContractInfo :=
      { deploy_hash := response_hash,
        deploy_address := dq ++ "0x" ++ response_address_clean ++ dq,
        instances := [] }
    .ok { config with
          l1x_evm := config.l1x_evm.insert artifact_id contract_info }

/-- The registry file state after running the update: the new content on
success, the untouched old file when the update aborted. -/
def registry_file_after_update
    (file : Option L1XVMContractAddressRegistry)
    (update_type : L1XVMContractAddressUpdateType) :
    Option L1XVMContractAddressRegistry :=
  match update_toolkit_contract_address_registry file update_type with
  | .ok c => some c
  | .error _ => file

/-- `toolkit_config.rs::get_toolkit_ebpf_contract_address_for`; the file
read failure of `load_contract_address_registry` is the `none` case. -/
def get_toolkit_ebpf_contract_address_for
    (file : Option L1XVMContractAddressRegistry)
    (artifact_id : String) (contract_id : Option String) :
    Except String String :=
  match file with
  | none => .error "Failed to load contract registry yaml file"
  | some config =>
    match config.l1x_vm.find? artifact_id with
    | some contract_info =>
      match contract_id with
      | some cid =>
        match contract_info.instances.find? cid with
        | some contract_instance_info =>
          .ok (clean_address_string contract_instance_info.inst_address)
        | none =>
          .error ("Contract instance " ++ cid ++ " not found for artifact "
            ++ artifact_id)
      | none => .ok (clean_address_string contract_info.deploy_address)
    | none =>
      .error ("Artifact " ++ artifact_id
        ++ " not found in the contract registry")

/-- `toolkit_config.rs::get_toolkit_evm_contract_address_for` (the
`contract_id` argument is accepted and ignored, as in the source). -/
def get_toolkit_evm_contract_address_for
    (file : Option L1XVMContractAddressRegistry)
    (artifact_id : String) (_contract_id : Option String) :
    Except String String :=
  match file with
  | none => .error "Failed to load contract registry yaml file"
  | some config =>
    match config.l1x_evm.find? artifact_id with
    | some contract_info =>
      .ok (clean_address_string contract_info.deploy_address)
    | none =>
      .error ("Artifact " ++ artifact_id
        ++ " not found in the contract registry")

/-! ### Transaction payloads and the submit-transaction request

`l1x_common::types::Transaction` and the primitive type aliases live in
`types.rs`/`primitives.rs`, which are not part of the provided sources;
they are modelled from the spec below.  The `l1x_rpc::rpc_model` types are
an external crate, modelled minimally with the fields the client touches. -/

/-- Modelled from the spec: `types::AccessType` — deployment access type
(the source JSON payloads contain `"PRIVATE"`/`"PUBLIC"`). -/
inductive AccessType
  | PRIVATE
  | PUBLIC
deriving DecidableEq, Repr

/-- Modelled from the spec: `types::ContractType` — the target VM
(the source JSON payloads contain `"L1XVM"`/`"EVM"`). -/
inductive ContractType
  | L1XVM
  | EVM
deriving DecidableEq, Repr

/-- Modelled from the spec: `types::U8s` — raw bytes given either as hex
or as literal text. -/
inductive U8s
  | hex (bytes : List Nat)
  | text (s : String)
deriving DecidableEq, Repr

/-- Modelled from the spec: `types::Transaction`, the tagged union of
transaction payloads the CLI constructs (spec §3 TransactionType):
deployment, init, function call and native transfer. -/
inductive Transaction
  | smartContractDeployment
      (access_type : AccessType) (contract_type : ContractType) (code : U8s)
  | smartContractInit (deployed_address : U8s) (init_args : U8s)
  | smartContractFunctionCall
      (contract_instance_address : U8s) (function : U8s) (arguments : U8s)
  | nativeTokenTransfer (address : List Nat) (amount : Nat)
deriving DecidableEq, Repr

/-- `l1x_rpc::rpc_model::submit_transaction_request::TransactionType`
(external crate): the wire-level tagged union. -/
inductive RpcTransactionType
  | nativeTokenTransfer (address : List Nat) (amount : Nat)
  | smartContractDeployment
      (access_type : AccessType) (contract_type : ContractType)
      (code : List Nat)
  | smartContractInit (address : List Nat) (arguments : List Nat)
  | smartContractFunctionCall
      (contract_address : List Nat) (function : String) (arguments : List Nat)
deriving DecidableEq, Repr

/-- Bytes of a `U8s` value (text as character codes). -/
def U8s.toBytes : U8s → List Nat
  | .hex bytes => bytes
  | .text s => s.data.map Char.toNat

/-- Modelled from the spec: the `TryInto` conversion from
`types::Transaction` to the RPC wire transaction type implemented in
`types.rs` — a tag-preserving translation of each variant. -/
def Transaction.toRpc : Transaction → Except String RpcTransactionType
  | .smartContractDeployment access_type contract_type code =>
    .ok (.smartContractDeployment access_type contract_type code.toBytes)
  | .smartContractInit deployed_address init_args =>
    .ok (.smartContractInit deployed_address.toBytes init_args.toBytes)
  | .smartContractFunctionCall contract_instance_address function arguments =>
    .ok (.smartContractFunctionCall contract_instance_address.toBytes
      (match function with | .text s => s | .hex bs => hexEncode bs)
      arguments.toBytes)
  | .nativeTokenTransfer address amount =>
    .ok (.nativeTokenTransfer address amount)

/-- The `is_native_token_transfer` match of `lib.rs::get_submit_txn_req`. -/
def isNativeTokenTransfer : RpcTransactionType → Bool
  | .nativeTokenTransfer _ _ => true
  | _ => false

/-- `lib.rs::TransactionTypeNativeTX`. -/
inductive TransactionTypeNativeTX
  | nativeTokenTransfer (address : List Nat) (amount : String)
deriving DecidableEq, Repr

/-- `lib.rs::NativeTokenTransferPayload` — the struct whose JSON
serialization is hashed and signed for native transfers. -/
structure NativeTokenTransferPayload where
  nonce : Nat
  transaction_type : TransactionTypeNativeTX
  fee_limit : Nat
deriving DecidableEq, Repr

/-- `serde_json::to_string` of `NativeTokenTransferPayload`: field order as
declared; the enum variant as an externally-tagged one-element object; the
20-byte address array as a JSON array of numbers; the amount as a JSON
string. -/
def encodeNativePayload (p : NativeTokenTransferPayload) : String :=
  match p.transaction_type with
  | .nativeTokenTransfer address amount =>
    lbrace ++ dq ++ "nonce" ++ dq ++ ":" ++ toString p.nonce ++ ","
      ++ dq ++ "transaction_type" ++ dq ++ ":"
      ++ lbrace ++ dq ++ "NativeTokenTransfer" ++ dq ++ ":["
      ++ "[" ++ joinWithComma (address.map toString) ++ "]"
      ++ "," ++ dq ++ amount ++ dq ++ "]" ++ rbrace
      ++ "," ++ dq ++ "fee_limit" ++ dq ++ ":" ++ toString p.fee_limit
      ++ rbrace

/-- The signature field of a submit request.  External cryptography is kept
abstract but injective: each constructor records which signing strategy was
applied to which exact payload.
  * `ecdsaSha256 secret hashedInput` — `secret_key.sign_ecdsa` over the
    SHA-256 hash of the byte string `hashedInput`;
  * `protocolSign secret t fee nonce` — the external `l1x_rpc::sign`
    protocol encoding of `(t, fee, nonce)` signed with `secret`. -/
inductive SigPayload
  | ecdsaSha256 (secret : List Nat) (hashedInput : String)
  | protocolSign
      (secret : List Nat) (t : RpcTransactionType) (fee : Nat) (nonce : Nat)
deriving DecidableEq, Repr

/-- A verifying key, always derived from a secret key (never supplied). -/
inductive VerifyingKey
  | derivedFrom (secret : List Nat)
deriving DecidableEq, Repr

/-- `l1x_rpc::rpc_model::SubmitTransactionRequest` (external crate):
nonce and fee limit on the wire as decimal strings. -/
structure SubmitTransactionRequest where
  nonce : String
  fee_limit : String
  signature : SigPayload
  verifying_key : VerifyingKey
  transaction_type : Option RpcTransactionType
deriving DecidableEq, Repr

/-- The external `l1x_rpc::sign` (protocol encoding + ECDSA), modelled as
always succeeding with the protocol-signature marker. -/
def l1x_rpc_sign (secret : List Nat) (t : RpcTransactionType)
    (fee_limit nonce : Nat) : Except String SigPayload :=
  .ok (.protocolSign secret t fee_limit nonce)

/-- `lib.rs::get_submit_txn_req`: decode the private key, derive the
verifying key, convert the transaction to its wire type, then sign —
JSON-serialize+SHA-256 for a native token transfer, the RPC-protocol
encoding for everything else.  `SecretKey::from_slice` requires exactly
32 bytes (the further secp256k1 range check on the scalar is not
modelled). -/
def get_submit_txn_req (txn : Transaction) (private_key : String)
    (fee_limit : Nat) (nonce : Nat) :
    Except String SubmitTransactionRequest :=
  match hexDecode private_key with
  | .error e => .error e
  | .ok keyBytes =>
    if keyBytes.length = 32 then
      match txn.toRpc with
      | .error e => .error e
      | .ok txn_type =>
        if isNativeTokenTransfer txn_type then
          match txn_type with
          | .nativeTokenTransfer address amount =>
            if address.length = 20 then
              let obj : NativeTokenTransferPayload :=
                { nonce := nonce,
                  transaction_type :=
                    .nativeTokenTransfer address (toString amount),
                  fee_limit := fee_limit }
              .ok { nonce := toString nonce,
                    fee_limit := toString fee_limit,
                    signature := .ecdsaSha256 keyBytes
                      (encodeNativePayload obj),
                    verifying_key := .derivedFrom keyBytes,
                    transaction_type := some txn_type }
            else
              .error "Failed to convert NativeTokenAddress Address vec<u8> to array"
          | _ =>
            -- dead arm mirroring the source's defaulted match arm; it is
            -- unreachable because the outer branch requires a native transfer
            .error "unreachable"
        else
          match l1x_rpc_sign keyBytes txn_type fee_limit nonce with
          | .error e => .error e
          | .ok sig =>
            .ok { nonce := toString nonce,
                  fee_limit := toString fee_limit,
                  signature := sig,
                  verifying_key := .derivedFrom keyBytes,
                  transaction_type := some txn_type }
    else .error "Failed to parse provided private_key"

/-! ### JSON values and event payloads

`serde_json::Value` is modelled as `Json`; indexing with a missing key (or
into a non-object) yields JSON `null`, and `Display` (`to_string()`)
serializes compactly — exactly the two operations the EVM deploy flow uses
on event data.  String rendering does not model serde's escape sequences;
the claims only exercise it on plain hex addresses and on `null`. -/

/-- A JSON value (`serde_json::Value`). -/
inductive Json
  | null
  | bool (b : Bool)
  | num (n : Int)
  | str (s : String)
  | arr (elems : List Json)
  | obj (fields : List (String × Json))

/-- `Value::index` with a string key: the field of an object, JSON `null`
for a missing field or a non-object. -/
def Json.index (j : Json) (key : String) : Json :=
  match j with
  | .obj fields =>
    match fields.lookup key with
    | some v => v
    | none => .null
  | _ => .null

mutual

/-- `Value::to_string()` (`Display`): compact serialization. -/
def Json.render : Json → String
  | .null => "null"
  | .bool true => "true"
  | .bool false => "false"
  | .num n => toString n
  | .str s => dq ++ s ++ dq
  | .arr elems => "[" ++ Json.renderArr elems ++ "]"
  | .obj fields => lbrace ++ Json.renderObj fields ++ rbrace

/-- Elements of a JSON array, comma separated. -/
def Json.renderArr : List Json → String
  | [] => ""
  | [j] => Json.render j
  | j :: j2 :: rest => Json.render j ++ "," ++ Json.renderArr (j2 :: rest)

/-- Fields of a JSON object, comma separated. -/
def Json.renderObj : List (String × Json) → String
  | [] => ""
  | [(k, j)] => dq ++ k ++ dq ++ ":" ++ Json.render j
  | (k, j) :: f2 :: rest =>
    dq ++ k ++ dq ++ ":" ++ Json.render j ++ "," ++ Json.renderObj (f2 :: rest)

end

/-- `serde_json::from_value::<Vec<u8>>`: a JSON array of byte-sized
numbers, anything else is a parse error. -/
def jsonToByteVec : Json → Except String (List Nat)
  | .arr elems =>
    elems.foldr
      (fun j acc =>
        match j, acc with
        | .num n, .ok bs =>
          if 0 ≤ n ∧ n ≤ 255 then .ok (n.toNat :: bs)
          else .error "invalid value: number out of u8 range"
        | _, _ => .error "invalid type: expected byte array")
      (.ok [])
  | _ => .error "invalid type: expected byte array"

/-- One raw event byte-blob returned by `getEvents`, together with what
`serde_json::from_slice::<Value>` yields on those bytes (supplied by the
oracle; a JSON parser itself is not embedded). -/
structure EventBlob where
  bytes : List Nat
  parsed : Except String Json

/-- `l1x_rpc::rpc_model::SubmitTransactionResponse` (external crate). -/
structure SubmitTransactionResponse where
  hash : String
  contract_address : Option String
deriving DecidableEq, Repr

/-! ### RPC call traces and oracles

Every network round-trip a flow actually issues is recorded in a trace;
the oracle record supplies the outcome of each round-trip (the composite
of the HTTP post and the response parse, failures as `Except.error`). -/

/-- One issued JSON-RPC call, with the exact payload where a claim needs
it: the full request for `l1x_submitTransaction`, the transaction hash for
`l1x_getEvents`. -/
inductive RpcCall
  | getNonce
  | submitTransaction (req : SubmitTransactionRequest)
  | getEvents (tx_hash : String)
deriving DecidableEq, Repr

/-- Oracle for the install/deploy flows: results of the nonce fetch, of
`l1x_submitTransaction` (post + parse), and of `l1x_getEvents`
(post + parse, events as blobs). -/
structure DeployOracle where
  nonceResult : Except String Nat
  submitResult : Except String SubmitTransactionResponse
  eventsResult : Except String (List EventBlob)

/-- Oracle for the function-call submit flow, whose event response is read
as one `Vec<u8>` from the raw JSON (`events_data`). -/
structure SubTxnOracle where
  nonceResult : Except String Nat
  submitResult : Except String SubmitTransactionResponse
  eventsDataResult : Except String (List Nat)

/-- Oracle for the read-only call flow: the raw `JsonRpcResponse.result`
field of the `l1x_smartContractReadOnlyCall` post (`none` when the
JSON-RPC envelope carried no result object). -/
structure ReadOnlyOracle where
  callResult : Except String (Option Json)

/-- The nonce strings of the submit requests appearing in a trace. -/
def submittedNonces (tr : List RpcCall) : List String :=
  tr.filterMap (fun c =>
    match c with
    | .submitTransaction req => some req.nonce
    | _ => none)

/-! ### Install command and flows (`contract_install.rs`) -/

/-- `contract_install.rs::L1XVmInstallContractCmd` (the CLI argument
fields the flows read; the owner's private key, resolved from the wallet
config by the collaborator layer, is passed separately). -/
structure L1XVmInstallContractCmd where
  force : Bool
  contract_id : String
  artifact_id : String
  fee_limit : Nat
deriving DecidableEq, Repr

/-- `contract_install.rs::L1XVmContractInstallInternal::submit_transaction`:
fetch the nonce, build the request from the just-written JSON payload file
with `nonce + 1` (`load_submit_txn_req`; the file round-trip is collapsed
into `loadResult`, the parsed transaction or the deserialization error),
then post it.  Returns the response and the trace of issued calls. -/
def submit_transaction (o : DeployOracle) (private_key : String)
    (fee_limit : Nat) (loadResult : Except String Transaction) :
    Except String SubmitTransactionResponse × List RpcCall :=
  match o.nonceResult with
  | .error e =>
    (.error ("L1X Submit Transaction Failed: Unable to get nounce " ++ e),
     [RpcCall.getNonce])
  | .ok nonce =>
    match loadResult with
    | .error e =>
      (.error ("Failed to deserialize transaction payload " ++ e),
       [RpcCall.getNonce])
    | .ok txn =>
      match get_submit_txn_req txn private_key fee_limit (nonce + 1) with
      | .error e =>
        (.error
          ("L1X Submit Transaction Failed: Unable to create SubmitTransactionRequest "
            ++ e),
         [RpcCall.getNonce])
      | .ok request =>
        match o.submitResult with
        | .error e =>
          (.error
            ("L1X Submit Transaction Failed: l1x_submitTransaction request failed "
              ++ e),
           [RpcCall.getNonce, RpcCall.submitTransaction request])
        | .ok response =>
          (.ok response,
           [RpcCall.getNonce, RpcCall.submitTransaction request])

/-- Result of one deploy or init flow run: the flow's return value, the
trace of issued RPC calls, and the registry file it left behind. -/
structure EbpfFlowRun where
  result : Except String SubmitTransactionResponse
  trace : List RpcCall
  registry : Option L1XVMContractAddressRegistry

/-- `contract_install.rs::l1x_ebpf_deploy_contract`: write the deployment
JSON payload (access `PRIVATE`, contract type `L1XVM`, the artifact bytes),
submit it, wait, poll events (content only logged), then record
`(hash, contract_address)` in the `l1x_vm` registry table. -/
def l1x_ebpf_deploy_contract (o : DeployOracle)
    (file : Option L1XVMContractAddressRegistry)
    (cmd : L1XVmInstallContractCmd) (private_key : String)
    (artifactBytes : List Nat) : EbpfFlowRun :=
  let txn : Transaction :=
    .smartContractDeployment .PRIVATE .L1XVM (.hex artifactBytes)
  match submit_transaction o private_key cmd.fee_limit (.ok txn) with
  | (.error e, tr) => { result := .error e, trace := tr, registry := file }
  | (.ok deploy_response, tr) =>
    match o.eventsResult with
    | .error e =>
      { result := .error
          ("L1X Submit Transaction Failed: l1x_submitTransaction request failed "
            ++ e),
        trace := tr ++ [RpcCall.getEvents deploy_response.hash],
        registry := file }
    | .ok _events =>
      { result := .ok deploy_response,
        trace := tr ++ [RpcCall.getEvents deploy_response.hash],
        registry := registry_file_after_update file
          (.L1XEBPF_DEPLOY cmd.artifact_id deploy_response.hash
            (deploy_response.contract_address.getD "")) }

/-- `contract_install.rs::l1x_ebpf_init_contract`: write the init JSON
payload (`smart_contract_init` with the deploy address as hex and empty
init args), submit it, wait, poll events, then record the instance under
the artifact's registry entry.  The registry update's `panic!` (missing
deploy entry) aborts the flow with the file unchanged. -/
def l1x_ebpf_init_contract (o : DeployOracle)
    (file : Option L1XVMContractAddressRegistry)
    (cmd : L1XVmInstallContractCmd) (private_key : String)
    (deploy_address : String) : EbpfFlowRun :=
  let loadResult : Except String Transaction :=
    match hexDecode deploy_address with
    | .ok addrBytes =>
      .ok (.smartContractInit (.hex addrBytes) (.text (lbrace ++ rbrace)))
    | .error e => .error e
  match submit_transaction o private_key cmd.fee_limit loadResult with
  | (.error e, tr) => { result := .error e, trace := tr, registry := file }
  | (.ok init_response, tr) =>
    match o.eventsResult with
    | .error e =>
      { result := .error
          ("L1X Submit Transaction Failed: l1x_submitTransaction request failed "
            ++ e),
        trace := tr ++ [RpcCall.getEvents init_response.hash],
        registry := file }
    | .ok _events =>
      match update_toolkit_contract_address_registry file
        (.L1XEBPF_INIT cmd.artifact_id cmd.contract_id init_response.hash
          (init_response.contract_address.getD "")) with
      | .ok config =>
        { result := .ok init_response,
          trace := tr ++ [RpcCall.getEvents init_response.hash],
          registry := some config }
      | .error e =>
        { result := .error ("panicked: " ++ e),
          trace := tr ++ [RpcCall.getEvents init_response.hash],
          registry := file }

/-- Result of the EVM deploy flow, additionally exposing the
`deployed_address_from_event` accumulator (the event-extractor outcome) at
the point the registry is written (`none` when the flow failed earlier or
no event supplied an address). -/
structure EvmDeployRun where
  result : Except String SubmitTransactionResponse
  trace : List RpcCall
  registry : Option L1XVMContractAddressRegistry
  deployed_address_from_event : Option String

/-- Rust `if hex_code.starts_with("0x") { &hex_code[2..] } else { &hex_code }`. -/
def stripLeading0x (s : String) : String :=
  String.mk (match s.data with
    | c1 :: c2 :: rest =>
      if c1 = '0' ∧ c2 = 'x' then rest else c1 :: c2 :: rest
    | l => l)

/-- The event loop of `l1x_evm_deploy_contract`: parse every event blob as
JSON (any parse failure aborts), and take `event_data["address"].to_string()`
of the first event as the deployed address. -/
def evm_scan_events : List EventBlob → Option String →
    Except String (Option String)
  | [], acc => .ok acc
  | event_item :: rest, acc =>
    match event_item.parsed with
    | .error e =>
      .error ("EVM Contract Deploy Failed: Unable to parse the response " ++ e)
    | .ok event_data =>
      let acc' := match acc with
        | none => some ((event_data.index "address").render)
        | some a => some a
      evm_scan_events rest acc'

/-- `contract_install.rs::l1x_evm_deploy_contract`: read the artifact hex,
strip a `0x` prefix, hex-parse it, then (inline, not via
`submit_transaction`) fetch the nonce, build the request with `nonce + 1`,
post it, wait, poll events, extract the address from the first event's
JSON `address` field, and record `(hash, cleaned event address)` in the
`l1x_evm` registry table. -/
def l1x_evm_deploy_contract (o : DeployOracle)
    (file : Option L1XVMContractAddressRegistry)
    (cmd : L1XVmInstallContractCmd) (private_key : String)
    (hex_code : String) : EvmDeployRun :=
  let clean_hex_string := stripLeading0x hex_code
  match hexDecode clean_hex_string with
  | .error _ =>
    { result := .error "EVM Contract Deploy Failed: Hex File Parse Error",
      trace := [], registry := file, deployed_address_from_event := none }
  | .ok codeBytes =>
    let txn : Transaction :=
      .smartContractDeployment .PUBLIC .EVM (.hex codeBytes)
    match o.nonceResult with
    | .error e =>
      { result := .error
          ("EVM Contract Deploy Failed: Unable to get nounce " ++ e),
        trace := [RpcCall.getNonce], registry := file,
        deployed_address_from_event := none }
    | .ok nonce =>
      match get_submit_txn_req txn private_key cmd.fee_limit (nonce + 1) with
      | .error e =>
        { result := .error
            ("EVM Contract Deploy Failed: Unable to get_submit_txn_req :: "
              ++ e),
          trace := [RpcCall.getNonce], registry := file,
          deployed_address_from_event := none }
      | .ok request =>
        match o.submitResult with
        | .error e =>
          { result := .error
              ("EVM Contract Deploy Failed: Unable to post_json_rpc " ++ e),
            trace := [RpcCall.getNonce, RpcCall.submitTransaction request],
            registry := file, deployed_address_from_event := none }
        | .ok deploy_response =>
          match o.eventsResult with
          | .error e =>
            { result := .error
                ("EVM Contract Deploy Failed: l1x_submitTransaction request failed "
                  ++ e),
              trace := [RpcCall.getNonce, RpcCall.submitTransaction request,
                RpcCall.getEvents deploy_response.hash],
              registry := file, deployed_address_from_event := none }
          | .ok events =>
            match evm_scan_events events none with
            | .error e =>
              { result := .error e,
                trace := [RpcCall.getNonce,
                  RpcCall.submitTransaction request,
                  RpcCall.getEvents deploy_response.hash],
                registry := file, deployed_address_from_event := none }
            | .ok deployed_address_from_event =>
              { result := .ok deploy_response,
                trace := [RpcCall.getNonce,
                  RpcCall.submitTransaction request,
                  RpcCall.getEvents deploy_response.hash],
                registry := registry_file_after_update file
                  (.L1XEVM_DEPLOY cmd.artifact_id deploy_response.hash
                    (deployed_address_from_event.getD "")),
                deployed_address_from_event := deployed_address_from_event }

/-- The phase of the install state machine an RPC call belongs to. -/
inductive Phase
  | deploy
  | init
deriving DecidableEq, Repr

/-- Result of one install invocation: the command's outcome, the
phase-tagged trace of issued RPC calls, the registry file left behind, and
the resolved deploy address (`contract_deploy_address` in the source). -/
structure InstallRun where
  result : Except String Unit
  trace : List (Phase × RpcCall)
  registry : Option L1XVMContractAddressRegistry
  contract_deploy_address : Option String

/-- `contract_install.rs::l1x_ebpf_install_contract`: with `force=false`
look the artifact up in the registry; deploy on `force=true` or a failed
lookup, otherwise reuse the cached address; then always run the init step
against the resolved address. -/
def l1x_ebpf_install_contract (odeploy oinit : DeployOracle)
    (file : Option L1XVMContractAddressRegistry)
    (cmd : L1XVmInstallContractCmd) (private_key : String)
    (artifactBytes : List Nat) : InstallRun :=
  let artifact_deploy_status : Except String String :=
    if cmd.force = false then
      get_toolkit_ebpf_contract_address_for file cmd.artifact_id none
    else
      .error "L1X eBPF Deployment Failed: Unknown Contract Deployment Address"
  match cmd.force, artifact_deploy_status with
  | false, .ok address =>
    let initRun := l1x_ebpf_init_contract oinit file cmd private_key address
    { result := initRun.result.map (fun _ => ()),
      trace := initRun.trace.map (fun c => (Phase.init, c)),
      registry := initRun.registry,
      contract_deploy_address := some address }
  | _, _ =>
    let depRun :=
      l1x_ebpf_deploy_contract odeploy file cmd private_key artifactBytes
    match depRun.result with
    | .error e =>
      { result := .error e,
        trace := depRun.trace.map (fun c => (Phase.deploy, c)),
        registry := depRun.registry,
        contract_deploy_address := none }
    | .ok deploy_response =>
      let address := deploy_response.contract_address.getD ""
      let initRun :=
        l1x_ebpf_init_contract oinit depRun.registry cmd private_key address
      { result := initRun.result.map (fun _ => ()),
        trace := depRun.trace.map (fun c => (Phase.deploy, c))
          ++ initRun.trace.map (fun c => (Phase.init, c)),
        registry := initRun.registry,
        contract_deploy_address := some address }

/-- `contract_install.rs::l1x_evm_install_contract`: with `force=false`
look the artifact up in the `l1x_evm` registry table; deploy on
`force=true` or a failed lookup, otherwise finish immediately with the
cached address and no chain interaction (EVM has no init step). -/
def l1x_evm_install_contract (odeploy : DeployOracle)
    (file : Option L1XVMContractAddressRegistry)
    (cmd : L1XVmInstallContractCmd) (private_key : String)
    (hex_code : String) : InstallRun :=
  let artifact_deploy_status : Except String String :=
    if cmd.force = false then
      get_toolkit_evm_contract_address_for file cmd.artifact_id none
    else
      .error "L1X EVM Deployment Failed: Unknown Contract Deployment Address"
  match cmd.force, artifact_deploy_status with
  | false, .ok address =>
    { result := .ok (), trace := [], registry := file,
      contract_deploy_address := some address }
  | _, _ =>
    let depRun :=
      l1x_evm_deploy_contract odeploy file cmd private_key hex_code
    match depRun.result with
    | .error e =>
      { result := .error e,
        trace := depRun.trace.map (fun c => (Phase.deploy, c)),
        registry := depRun.registry,
        contract_deploy_address := none }
    | .ok deploy_response =>
      { result := .ok (),
        trace := depRun.trace.map (fun c => (Phase.deploy, c)),
        registry := depRun.registry,
        contract_deploy_address :=
          some (deploy_response.contract_address.getD "") }

/-! ### Function-call submit and read-only flows (`contract_sub_txn.rs`) -/

/-- `contract_sub_txn.rs::L1XVmTxnResponse` — the structured status object
printed for downstream tooling. -/
structure L1XVmTxnResponse where
  status : Nat
  message : String
deriving DecidableEq, Repr

/-- `contract_sub_txn.rs::create_txn_function_call`: hex-parse the cleaned
contract address and function payload into a `SmartContractFunctionCall`
transaction (the textual function selector is left empty). -/
def create_txn_function_call (contract_address function_payload : String) :
    Except String Transaction :=
  match hexDecode contract_address with
  | .error _ => .error "Sub Txn Failed: Hex File Parse Error"
  | .ok addrBytes =>
    match hexDecode function_payload with
    | .error _ => .error "Sub Txn Failed: Hex File Parse Error"
    | .ok argBytes =>
      .ok (.smartContractFunctionCall (.hex addrBytes) (.text "")
        (.hex argBytes))

/-- `contract_sub_txn.rs::create_ronly_txn_function_call`: the read-only
counterpart (same shape, read-only request). -/
def create_ronly_txn_function_call
    (contract_address function_payload : String) :
    Except String (U8s × U8s × U8s) :=
  match hexDecode contract_address with
  | .error _ => .error "Read-Only Txn Failed: Hex File Parse Error"
  | .ok addrBytes =>
    match hexDecode function_payload with
    | .error _ => .error "Read-Only Txn Failed: Hex File Parse Error"
    | .ok argBytes =>
      .ok (.hex addrBytes, .text "", .hex argBytes)

/-- `contract_sub_txn.rs::create_submit_txn_request`: delegates to
`get_submit_txn_req` with `nonce + 1`. -/
def create_submit_txn_request (private_key : String)
    (fee_limit nonce : Nat) (txn_function_call : Transaction) :
    Except String SubmitTransactionRequest :=
  match get_submit_txn_req txn_function_call private_key fee_limit
    (nonce + 1) with
  | .ok request => .ok request
  | .error e =>
    .error ("Sub Txn Failed: Unable to get_submit_txn_req :: " ++ e)

/-- Result of one function-call submit run: the printed status object on
success, and the trace of issued RPC calls. -/
structure SubTxnRun where
  result : Except String L1XVmTxnResponse
  trace : List RpcCall

/-- `contract_sub_txn.rs::l1x_vm_submit_txn`: clean the inputs, build the
function-call transaction, fetch the nonce, build the submit request with
`nonce + 1` (which `create_submit_txn_request` increments once more), post
it, wait, poll events, and print the hex-encoded `events_data` with
status 0. -/
def l1x_vm_submit_txn (o : SubTxnOracle) (private_key : String)
    (fee_limit : Nat) (contract_address function_payload : String) :
    SubTxnRun :=
  let clean_hex_contract_address := clean_string contract_address
  let clean_hex_function_payload := clean_string function_payload
  match create_txn_function_call clean_hex_contract_address
    clean_hex_function_payload with
  | .error e => { result := .error e, trace := [] }
  | .ok txn_function_call =>
    match o.nonceResult with
    | .error e =>
      { result := .error ("Sub Txn Failed: Unable to get nounce " ++ e),
        trace := [RpcCall.getNonce] }
    | .ok nonce =>
      match create_submit_txn_request private_key fee_limit (nonce + 1)
        txn_function_call with
      | .error e => { result := .error e, trace := [RpcCall.getNonce] }
      | .ok request =>
        match o.submitResult with
        | .error e =>
          { result := .error
              ("Sub Txn Failed: Unable to post_json_rpc " ++ e),
            trace := [RpcCall.getNonce, RpcCall.submitTransaction request] }
        | .ok txn_response =>
          match o.eventsDataResult with
          | .error e =>
            { result := .error
                ("Sub Txn Resp Failed: Unable to parse JSON Value " ++ e),
              trace := [RpcCall.getNonce,
                RpcCall.submitTransaction request,
                RpcCall.getEvents txn_response.hash] }
          | .ok txn_event_response_message =>
            { result := .ok
                { status := 0,
                  message := hexEncode txn_event_response_message },
              trace := [RpcCall.getNonce,
                RpcCall.submitTransaction request,
                RpcCall.getEvents txn_response.hash] }

/-- `contract_sub_txn.rs::l1x_vm_read_only_call`: clean the inputs, build
the read-only request, post it; if the JSON-RPC envelope carries a result
object, parse its `result` field as bytes and print them hex-encoded with
status 0; if the envelope has no result object, print status 1 with the
sentinel `"InValid Inner Response"`.  The contract-level `status` field of
the response is never inspected. -/
def l1x_vm_read_only_call (o : ReadOnlyOracle)
    (contract_address function_payload : String) :
    Except String L1XVmTxnResponse :=
  let clean_hex_contract_address := clean_string contract_address
  let clean_hex_function_payload := clean_string function_payload
  match create_ronly_txn_function_call clean_hex_contract_address
    clean_hex_function_payload with
  | .error e => .error e
  | .ok _ronly_function_call =>
    match o.callResult with
    | .error e =>
      .error ("Read-Only Txn Failed: Unable to post_json_rpc " ++ e)
    | .ok (some response_inner) =>
      match jsonToByteVec (response_inner.index "result") with
      | .error e =>
        .error ("Read-Only Txn Failed: Unable to parse JSON Value " ++ e)
      | .ok response_message =>
        .ok { status := 0, message := hexEncode response_message }
    | .ok none =>
      .ok { status := 1, message := "InValid Inner Response" }

/-! ### Supporting lemmas about normalization -/

/-- Weakening for `List.all`. -/
theorem all_imp {p q : Char → Bool} {l : List Char} (h : l.all p = true)
    (himp : ∀ c, p c = true → q c = true) : l.all q = true := by
  rw [List.all_eq_true] at h ⊢
  exact fun c hc => himp c (h c hc)

/-- `dropWhile` skips a fully matching front segment. -/
theorem dropWhile_append_of_all {p : Char → Bool} :
    ∀ {a : List Char} (b : List Char), a.all p = true →
      (a ++ b).dropWhile p = b.dropWhile p
  | [], _, _ => rfl
  | c :: rest, b, h => by
    have hc : p c = true := by
      have := List.all_eq_true.mp h c (by simp)
      exact this
    have ih := dropWhile_append_of_all (a := rest) b
      (by
        rw [List.all_eq_true] at h ⊢
        exact fun x hx => h x (by simp [hx]))
    simp [List.dropWhile, hc, ih]

/-- `dropWhile` consumes a fully matching list. -/
theorem dropWhile_eq_nil_of_all {p : Char → Bool} {l : List Char}
    (h : l.all p = true) : l.dropWhile p = [] := by
  have := dropWhile_append_of_all (a := l) [] h
  simpa using this

/-- `dropWhile` stops at a non-matching head. -/
theorem dropWhile_of_head_neg {p : Char → Bool} {c : Char} {l : List Char}
    (h : p c = false) : (c :: l).dropWhile p = c :: l := by
  simp [List.dropWhile, h]

/-- `dropWhile` leaves a list free of matching characters unchanged. -/
theorem dropWhile_all_neg {p : Char → Bool} {m : List Char}
    (hm : m.all (fun c => !p c) = true) : m.dropWhile p = m := by
  cases m with
  | nil => rfl
  | cons c t =>
    have hc : p c = false := by
      have := List.all_eq_true.mp hm c (by simp)
      simpa using this
    exact dropWhile_of_head_neg hc

/-- Trimming both ends of `a ++ m ++ b` with `a`, `b` fully matching and
`m` free of matching characters leaves exactly `m`. -/
theorem trimBothWith_sandwich {p : Char → Bool} {a m b : List Char}
    (ha : a.all p = true) (hb : b.all p = true)
    (hm : m.all (fun c => !p c) = true) :
    trimBothWith p (a ++ m ++ b) = m := by
  unfold trimBothWith dropTrailing
  rw [List.append_assoc, dropWhile_append_of_all (m ++ b) ha]
  cases m with
  | nil =>
    simp only [List.nil_append]
    rw [dropWhile_eq_nil_of_all hb]
    rfl
  | cons c t =>
    have hc : p c = false := by
      have := List.all_eq_true.mp hm c (by simp)
      simpa using this
    have hfront : List.dropWhile p (c :: t ++ b) = c :: t ++ b := by
      rw [List.cons_append]
      exact dropWhile_of_head_neg hc
    rw [hfront, List.reverse_append]
    have hbrev : b.reverse.all p = true := by
      rw [List.all_eq_true] at hb ⊢
      simp only [List.mem_reverse]
      exact hb
    rw [dropWhile_append_of_all ((c :: t).reverse) hbrev]
    have hrev : (c :: t).reverse.all (fun x => !p x) = true := by
      rw [List.all_eq_true] at hm ⊢
      simp only [List.mem_reverse]
      exact hm
    rw [dropWhile_all_neg hrev, List.reverse_reverse]

/-- A hex digit is not whitespace. -/
theorem hex_not_ws {c : Char} (h : isHexDigitChar c = true) :
    isWsChar c = false := by
  cases hw : isWsChar c
  · rfl
  · exfalso
    have hc : ((c = ' ' ∨ c = '\t') ∨ c = '\n') ∨ c = '\r' := by
      simpa [isWsChar, decide_eq_true_eq] using hw
    rcases hc with ((h1 | h1) | h1) | h1 <;> subst h1 <;>
      exact absurd h (by decide)

/-- A hex digit is not a double quote. -/
theorem hex_not_quote {c : Char} (h : isHexDigitChar c = true) :
    (c = quoteChar : Bool) = false := by
  cases hq : (c = quoteChar : Bool)
  · rfl
  · exfalso
    have hc : c = quoteChar := by simpa [decide_eq_true_eq] using hq
    subst hc
    exact absurd h (by decide)

/-- `strip_prefix("0x")` is the identity on all-hex-digit strings (a hex
digit is never `x`). -/
theorem rustStrip0x_of_all_hex {core : List Char}
    (h : core.all isHexDigitChar = true) : rustStrip0x core = core := by
  cases core with
  | nil => rfl
  | cons c1 t =>
    cases t with
    | nil => rfl
    | cons c2 rest =>
      show (if c1 = '0' ∧ c2 = 'x' then rest else c1 :: c2 :: rest) = _
      rw [if_neg]
      rintro ⟨-, h2⟩
      subst h2
      have := List.all_eq_true.mp h 'x' (by simp)
      exact absurd this (by decide)

/-- The normalizer maps any valid hex input — hex digits, an optional `0x`
prefix, optionally surrounded by quotes and whitespace — to its bare hex
core. -/
theorem cleanCore_valid (w1 q1 core q2 w2 : List Char) (pfx : Bool)
    (hw1 : w1.all isWsChar = true) (hw2 : w2.all isWsChar = true)
    (hq1 : q1.all (fun c => c = quoteChar) = true)
    (hq2 : q2.all (fun c => c = quoteChar) = true)
    (hcore : core.all isHexDigitChar = true) :
    cleanCore (w1 ++ (q1 ++ ((if pfx then ['0', 'x'] else []) ++
      (core ++ (q2 ++ w2))))) = core := by
  have pre_all :
      (if pfx then ['0', 'x'] else []).all (fun c => !isWsChar c) = true := by
    cases pfx <;> decide
  have pre_all_q :
      (if pfx then ['0', 'x'] else []).all
        (fun c => !(c = quoteChar : Bool)) = true := by
    cases pfx <;> decide
  have hq1ws : q1.all (fun c => !isWsChar c) = true := by
    refine all_imp hq1 ?_
    intro c hc
    have hcq : c = quoteChar := by simpa [decide_eq_true_eq] using hc
    subst hcq
    decide
  have hq2ws : q2.all (fun c => !isWsChar c) = true := by
    refine all_imp hq2 ?_
    intro c hc
    have hcq : c = quoteChar := by simpa [decide_eq_true_eq] using hc
    subst hcq
    decide
  have hcorews : core.all (fun c => !isWsChar c) = true := by
    refine all_imp hcore ?_
    intro c hc
    simp [hex_not_ws hc]
  have hcoreq : core.all (fun c => !(c = quoteChar : Bool)) = true := by
    refine all_imp hcore ?_
    intro c hc
    simp [hex_not_quote hc]
  have hmws :
      (q1 ++ ((if pfx then ['0', 'x'] else []) ++ (core ++ q2))).all
        (fun c => !isWsChar c) = true := by
    simp only [List.all_append, Bool.and_eq_true]
    exact ⟨hq1ws, pre_all, hcorews, hq2ws⟩
  have hmq :
      ((if pfx then ['0', 'x'] else []) ++ core).all
        (fun c => !(c = quoteChar : Bool)) = true := by
    simp only [List.all_append, Bool.and_eq_true]
    exact ⟨pre_all_q, hcoreq⟩
  have harr1 :
      w1 ++ (q1 ++ ((if pfx then ['0', 'x'] else []) ++
        (core ++ (q2 ++ w2))))
      = w1 ++ (q1 ++ ((if pfx then ['0', 'x'] else []) ++ (core ++ q2)))
          ++ w2 := by
    simp [List.append_assoc]
  have harr2 :
      q1 ++ ((if pfx then ['0', 'x'] else []) ++ (core ++ q2))
      = q1 ++ ((if pfx then ['0', 'x'] else []) ++ core) ++ q2 := by
    simp [List.append_assoc]
  unfold cleanCore rustTrim rustTrimQuotes
  rw [harr1, trimBothWith_sandwich hw1 hw2 hmws, harr2,
      trimBothWith_sandwich hq1 hq2 hmq]
  cases pfx
  · simpa using rustStrip0x_of_all_hex hcore
  · show rustStrip0x (['0', 'x'] ++ core) = core
    show (if ('0' : Char) = '0' ∧ ('x' : Char) = 'x'
        then core else '0' :: 'x' :: core) = core
    rw [if_pos ⟨rfl, rfl⟩]

/-- The normalizer is the identity on bare hex-digit strings. -/
theorem cleanCore_all_hex_fixed {l : List Char}
    (h : l.all isHexDigitChar = true) : cleanCore l = l := by
  have := cleanCore_valid [] [] l [] [] false rfl rfl rfl rfl h
  simpa using this

/-- The input class of the normalization claim, built from its description:
hex digits, an optional `0x` prefix, optionally surrounded by quotes and
whitespace. -/
def specValidHexInput (w1 q1 core q2 w2 : List Char) (pfx : Bool) : String :=
  String.mk (w1 ++ (q1 ++ ((if pfx then ['0', 'x'] else []) ++
    (core ++ (q2 ++ w2)))))

/-- C7: For every valid hex input string, with or without a `0x` prefix
(optionally surrounded by whitespace and quotes), address normalization is
idempotent — for both copies of the normalizer
(`clean_address_string` and `clean_string`). -/
theorem C7_clean_idempotent (w1 q1 core q2 w2 : List Char) (pfx : Bool)
    (hw1 : w1.all isWsChar = true) (hw2 : w2.all isWsChar = true)
    (hq1 : q1.all (fun c => c = quoteChar) = true)
    (hq2 : q2.all (fun c => c = quoteChar) = true)
    (hcore : core.all isHexDigitChar = true) :
    clean_address_string
        (clean_address_string (specValidHexInput w1 q1 core q2 w2 pfx))
      = clean_address_string (specValidHexInput w1 q1 core q2 w2 pfx) ∧
    clean_string (clean_string (specValidHexInput w1 q1 core q2 w2 pfx))
      = clean_string (specValidHexInput w1 q1 core q2 w2 pfx) := by
  have hclean :
      cleanCore (specValidHexInput w1 q1 core q2 w2 pfx).data = core := by
    show cleanCore (w1 ++ (q1 ++ ((if pfx then ['0', 'x'] else []) ++
      (core ++ (q2 ++ w2))))) = core
    exact cleanCore_valid w1 q1 core q2 w2 pfx hw1 hw2 hq1 hq2 hcore
  have hA : clean_address_string (specValidHexInput w1 q1 core q2 w2 pfx)
      = String.mk core := by
    unfold clean_address_string
    rw [hclean]
  have hB : clean_string (specValidHexInput w1 q1 core q2 w2 pfx)
      = String.mk core := by
    unfold clean_string
    rw [hclean]
  constructor
  · rw [hA]
    show String.mk (cleanCore core) = String.mk core
    rw [cleanCore_all_hex_fixed hcore]
  · rw [hB]
    show String.mk (cleanCore core) = String.mk core
    rw [cleanCore_all_hex_fixed hcore]

/-- Witness for C7 at the concrete input `  "0xAbC1"  `. -/
theorem C7_witness :
    (['A', 'b', 'C', '1'].all isHexDigitChar = true) ∧
    clean_address_string (clean_address_string
        (specValidHexInput [' ', ' '] [quoteChar] ['A', 'b', 'C', '1']
          [quoteChar] [' '] true))
      = clean_address_string
        (specValidHexInput [' ', ' '] [quoteChar] ['A', 'b', 'C', '1']
          [quoteChar] [' '] true) :=
  ⟨by decide,
   (C7_clean_idempotent [' ', ' '] [quoteChar] ['A', 'b', 'C', '1']
      [quoteChar] [' '] true (by decide) (by decide) (by decide) (by decide)
      (by decide)).1⟩

/-! ### Supporting lemmas about the submit request and concrete fixtures -/

/-- The wire nonce of a successfully built submit request is the decimal
rendering of the nonce argument. -/
theorem get_submit_txn_req_nonce (txn : Transaction) (key : String)
    (fee m : Nat) (req : SubmitTransactionRequest)
    (h : get_submit_txn_req txn key fee m = .ok req) :
    req.nonce = toString m := by
  unfold get_submit_txn_req at h
  repeat' split at h
  all_goals simp_all
  all_goals (cases h; rfl)

/-- `create_submit_txn_request` builds the request with one extra nonce
increment of its own. -/
theorem create_submit_txn_request_nonce (key : String) (fee m : Nat)
    (txn : Transaction) (req : SubmitTransactionRequest)
    (h : create_submit_txn_request key fee m txn = .ok req) :
    req.nonce = toString (m + 1) := by
  unfold create_submit_txn_request at h
  split at h
  next r heq =>
    cases h
    exact get_submit_txn_req_nonce _ _ _ _ _ heq
  next => simp at h

/-- A 64-hex-digit private key (decodes to 32 bytes). -/
def key64 : String := String.mk (List.replicate 64 '1')

/-- Concrete function-call-flow oracle: on-chain nonce 5, accepted
submission, two event bytes. -/
def subTxnOracle5 : SubTxnOracle :=
  { nonceResult := .ok 5,
    submitResult := .ok { hash := "ha5h", contract_address := none },
    eventsDataResult := .ok [1, 2] }

/-- C1 (amended): the install-path `submit_transaction` and the EVM deploy
flow place `fetched nonce + 1` in the submitted transaction, but the
function-call submit flow increments twice (once at the call site of
`create_submit_txn_request` and once inside it) and places
`fetched nonce + 2`. -/
theorem C1_nonce_amended (n : Nat) (o : DeployOracle) (ost : SubTxnOracle)
    (key : String) (fee : Nat) (load : Except String Transaction)
    (file : Option L1XVMContractAddressRegistry)
    (cmd : L1XVmInstallContractCmd) (hex_code ca fp : String)
    (hn : o.nonceResult = .ok n) (hns : ost.nonceResult = .ok n) :
    (∀ s ∈ submittedNonces (submit_transaction o key fee load).2,
      s = toString (n + 1)) ∧
    (∀ s ∈ submittedNonces
        (l1x_evm_deploy_contract o file cmd key hex_code).trace,
      s = toString (n + 1)) ∧
    (∀ s ∈ submittedNonces (l1x_vm_submit_txn ost key fee ca fp).trace,
      s = toString (n + 2)) := by
  refine ⟨?_, ?_, ?_⟩
  · intro s hs
    unfold submit_transaction at hs
    rw [hn] at hs
    cases load with
    | error e => simp [submittedNonces] at hs
    | ok txn =>
      simp only at hs
      cases hreq : get_submit_txn_req txn key fee (n + 1) with
      | error e => simp [hreq, submittedNonces] at hs
      | ok request =>
        rw [hreq] at hs
        cases hsr : o.submitResult with
        | error e =>
          rw [hsr] at hs
          simp [submittedNonces] at hs
          rw [hs]
          exact get_submit_txn_req_nonce _ _ _ _ _ hreq
        | ok resp =>
          rw [hsr] at hs
          simp [submittedNonces] at hs
          rw [hs]
          exact get_submit_txn_req_nonce _ _ _ _ _ hreq
  · intro s hs
    unfold l1x_evm_deploy_contract at hs
    simp only [] at hs
    cases hcode : hexDecode (stripLeading0x hex_code) with
    | error e => rw [hcode] at hs; simp [submittedNonces] at hs
    | ok codeBytes =>
      rw [hcode, hn] at hs
      simp only at hs
      cases hreq : get_submit_txn_req
        (.smartContractDeployment .PUBLIC .EVM (.hex codeBytes)) key
        cmd.fee_limit (n + 1) with
      | error e => simp [hreq, submittedNonces] at hs
      | ok request =>
        simp only [hreq] at hs
        have hnonce := get_submit_txn_req_nonce _ _ _ _ _ hreq
        cases hsr : o.submitResult with
        | error e =>
          simp only [hsr] at hs
          simp [submittedNonces] at hs
          rw [hs]; exact hnonce
        | ok resp =>
          simp only [hsr] at hs
          cases hev : o.eventsResult with
          | error e =>
            simp only [hev] at hs
            simp [submittedNonces] at hs
            rw [hs]; exact hnonce
          | ok events =>
            simp only [hev] at hs
            cases hscan : evm_scan_events events none with
            | error e =>
              simp only [hscan] at hs
              simp [submittedNonces] at hs
              rw [hs]; exact hnonce
            | ok acc =>
              simp only [hscan] at hs
              simp [submittedNonces] at hs
              rw [hs]; exact hnonce
  · intro s hs
    unfold l1x_vm_submit_txn at hs
    simp only [] at hs
    cases hfc : create_txn_function_call (clean_string ca)
      (clean_string fp) with
    | error e => rw [hfc] at hs; simp [submittedNonces] at hs
    | ok txn =>
      simp only [hfc, hns] at hs
      cases hreq : create_submit_txn_request key fee (n + 1) txn with
      | error e => simp [hreq, submittedNonces] at hs
      | ok request =>
        simp only [hreq] at hs
        have hnonce := create_submit_txn_request_nonce _ _ _ _ _ hreq
        cases hsr : ost.submitResult with
        | error e =>
          simp only [hsr] at hs
          simp [submittedNonces] at hs
          rw [hs]; exact hnonce
        | ok resp =>
          simp only [hsr] at hs
          cases hev : ost.eventsDataResult with
          | error e =>
            simp only [hev] at hs
            simp [submittedNonces] at hs
            rw [hs]; exact hnonce
          | ok bytes =>
            simp only [hev] at hs
            simp [submittedNonces] at hs
            rw [hs]; exact hnonce

/-- C1 counterexample: with the on-chain nonce fetched as 5, the
function-call submit flow places nonce `"7"` (= 5 + 2) in the submitted
transaction, not `"6"` (= 5 + 1) as the claim states for all flows. -/
theorem C1_counterexample :
    subTxnOracle5.nonceResult = .ok 5 ∧
    submittedNonces
        (l1x_vm_submit_txn subTxnOracle5 key64 100 "00" "").trace = ["7"] ∧
    ¬ submittedNonces
        (l1x_vm_submit_txn subTxnOracle5 key64 100 "00" "").trace
      = [toString (5 + 1)] := by
  refine ⟨rfl, by decide, by decide⟩

/-- Witness for C1 (amended) at the concrete fetched nonce 5: the
function-call flow submitted `"7"`. -/
theorem C1_witness :
    ("7" ∈ submittedNonces
      (l1x_vm_submit_txn subTxnOracle5 key64 100 "00" "").trace) ∧
    ("7" : String) = toString (5 + 2) :=
  ⟨by decide,
   (C1_nonce_amended 5
      { nonceResult := .ok 5, submitResult := .error "x",
        eventsResult := .error "x" }
      subTxnOracle5 key64 100 (.error "x") none
      { force := false, contract_id := "c", artifact_id := "a",
        fee_limit := 100 }
      "" "00" "" rfl rfl).2.2 "7" (by decide)⟩

/-- C2: with `force=false` and an existing registry entry for the artifact
(in the matching VM table), the install orchestrator issues no
`submitTransaction` call for the deploy step and resolves the deploy
address to the cached registry address — for the ebpf flow (which then
proceeds to init) and for the EVM flow (which performs no chain
interaction at all). -/
theorem C2_cached_no_deploy_submission
    (odeploy oinit : DeployOracle)
    (file : Option L1XVMContractAddressRegistry)
    (cmd : L1XVmInstallContractCmd) (key : String)
    (artifactBytes : List Nat) (hex_code : String) (addr addr2 : String)
    (hforce : cmd.force = false) :
    (get_toolkit_ebpf_contract_address_for file cmd.artifact_id none
        = .ok addr →
      (l1x_ebpf_install_contract odeploy oinit file cmd key
          artifactBytes).contract_deploy_address = some addr ∧
      ∀ req, (Phase.deploy, RpcCall.submitTransaction req) ∉
        (l1x_ebpf_install_contract odeploy oinit file cmd key
          artifactBytes).trace) ∧
    (get_toolkit_evm_contract_address_for file cmd.artifact_id none
        = .ok addr2 →
      (l1x_evm_install_contract odeploy file cmd key
          hex_code).contract_deploy_address = some addr2 ∧
      (l1x_evm_install_contract odeploy file cmd key hex_code).trace
        = []) := by
  constructor
  · intro h
    unfold l1x_ebpf_install_contract
    simp only [hforce, if_true, h]
    constructor
    · trivial
    · intro req
      simp [List.mem_map]
  · intro h
    unfold l1x_evm_install_contract
    simp only [hforce, if_true, h]
    constructor
    · trivial
    · trivial

/-- A registry with a deploy entry for artifact `art` in both tables. -/
def regArt : L1XVMContractAddressRegistry :=
  { l1x_vm := [("art",
      { deploy_hash := "h0", deploy_address := dq ++ "0xabc123" ++ dq,
        instances := [("c1",
          { inst_hash := "ih", inst_address := dq ++ "0xdd" ++ dq })] })],
    l1x_evm := [("art",
      { deploy_hash := "h1", deploy_address := dq ++ "0xdef456" ++ dq,
        instances := [] })] }

/-- An install command with `force=false` targeting artifact `art`. -/
def cmdNoForce : L1XVmInstallContractCmd :=
  { force := false, contract_id := "c1", artifact_id := "art",
    fee_limit := 100 }

/-- A deploy oracle whose every round-trip fails at the transport. -/
def oracleErr : DeployOracle :=
  { nonceResult := .error "net", submitResult := .error "net",
    eventsResult := .error "net" }

/-- An arbitrary concrete submit request (used to instantiate
non-membership statements). -/
def req0 : SubmitTransactionRequest :=
  { nonce := "0", fee_limit := "0",
    signature := .protocolSign [] (.nativeTokenTransfer [] 0) 0 0,
    verifying_key := .derivedFrom [], transaction_type := none }

/-- Witness for C2 at a concrete cached registry: the EVM install performs
no RPC call and resolves the cached address; the ebpf install's trace
contains no deploy-phase submission and resolves the cached address. -/
theorem C2_witness :
    (get_toolkit_ebpf_contract_address_for (some regArt)
        cmdNoForce.artifact_id none = .ok "abc123") ∧
    (l1x_ebpf_install_contract oracleErr oracleErr (some regArt) cmdNoForce
        key64 []).contract_deploy_address = some "abc123" ∧
    ((Phase.deploy, RpcCall.submitTransaction req0) ∉
      (l1x_ebpf_install_contract oracleErr oracleErr (some regArt) cmdNoForce
        key64 []).trace) ∧
    (l1x_evm_install_contract oracleErr (some regArt) cmdNoForce key64
        "00").trace = [] :=
  ⟨rfl,
   ((C2_cached_no_deploy_submission oracleErr oracleErr (some regArt)
      cmdNoForce key64 [] "00" "abc123" "def456" rfl).1 rfl).1,
   ((C2_cached_no_deploy_submission oracleErr oracleErr (some regArt)
      cmdNoForce key64 [] "00" "abc123" "def456" rfl).1 rfl).2 req0,
   ((C2_cached_no_deploy_submission oracleErr oracleErr (some regArt)
      cmdNoForce key64 [] "00" "abc123" "def456" rfl).2 rfl).2⟩

/-- C3 (amended): whenever a deploy or init flow fails with an error —
nonce fetch, request build, RPC post, response parse of the submission or
of the event poll, or the init-update invariant panic — the registry file
is left exactly as it was; no partial entry is committed.  (When all RPC
rounds succeed, however, the entry is committed even if no address was
resolved from the response or events; see the counterexample.) -/
theorem C3_amended (o : DeployOracle)
    (file : Option L1XVMContractAddressRegistry)
    (cmd : L1XVmInstallContractCmd) (key : String)
    (artifactBytes : List Nat) (hex_code deploy_address e : String) :
    ((l1x_ebpf_deploy_contract o file cmd key artifactBytes).result
        = .error e →
      (l1x_ebpf_deploy_contract o file cmd key artifactBytes).registry
        = file) ∧
    ((l1x_evm_deploy_contract o file cmd key hex_code).result = .error e →
      (l1x_evm_deploy_contract o file cmd key hex_code).registry = file) ∧
    ((l1x_ebpf_init_contract o file cmd key deploy_address).result
        = .error e →
      (l1x_ebpf_init_contract o file cmd key deploy_address).registry
        = file) := by
  refine ⟨?_, ?_, ?_⟩
  · intro h
    unfold l1x_ebpf_deploy_contract at h ⊢
    rcases hst : submit_transaction o key cmd.fee_limit
      (.ok (.smartContractDeployment .PRIVATE .L1XVM
        (.hex artifactBytes))) with ⟨r, tr⟩
    simp only [hst] at h ⊢
    cases r with
    | error e2 => rfl
    | ok resp =>
      cases hev : o.eventsResult with
      | error e2 => rfl
      | ok events => simp only [hev] at h; simp at h
  · intro h
    unfold l1x_evm_deploy_contract at h ⊢
    simp only [] at h ⊢
    cases hcode : hexDecode (stripLeading0x hex_code) with
    | error e2 => simp only [hcode]
    | ok codeBytes =>
      simp only [hcode] at h ⊢
      cases hn : o.nonceResult with
      | error e2 => simp only [hn]
      | ok nonce =>
        simp only [hn] at h ⊢
        cases hreq : get_submit_txn_req
          (.smartContractDeployment .PUBLIC .EVM (.hex codeBytes)) key
          cmd.fee_limit (nonce + 1) with
        | error e2 => simp only [hreq]
        | ok request =>
          simp only [hreq] at h ⊢
          cases hsr : o.submitResult with
          | error e2 => simp only [hsr]
          | ok resp =>
            simp only [hsr] at h ⊢
            cases hev : o.eventsResult with
            | error e2 => simp only [hev]
            | ok events =>
              simp only [hev] at h ⊢
              cases hscan : evm_scan_events events none with
              | error e2 => simp only [hscan]
              | ok acc => simp only [hscan] at h; simp at h
  · intro h
    unfold l1x_ebpf_init_contract at h ⊢
    simp only [] at h ⊢
    rcases hst : submit_transaction o key cmd.fee_limit
      (match hexDecode deploy_address with
        | .ok addrBytes =>
          .ok (.smartContractInit (.hex addrBytes)
            (.text (lbrace ++ rbrace)))
        | .error e3 => .error e3) with ⟨r, tr⟩
    simp only [hst] at h ⊢
    cases r with
    | error e2 => rfl
    | ok resp =>
      cases hev : o.eventsResult with
      | error e2 => rfl
      | ok events =>
        simp only [hev] at h ⊢
        cases hupd : update_toolkit_contract_address_registry file
          (.L1XEBPF_INIT cmd.artifact_id cmd.contract_id resp.hash
            (resp.contract_address.getD "")) with
        | error e2 => simp only [hupd]
        | ok config => simp only [hupd] at h; simp at h

/-- Oracle for a run whose RPC rounds all succeed but whose event poll
returns zero events (no address resolvable from confirmation). -/
def oracleOkNoEvents : DeployOracle :=
  { nonceResult := .ok 5,
    submitResult := .ok { hash := "deadbeef", contract_address := some "aa11" },
    eventsResult := .ok [] }

/-- C3 counterexample: an EVM deploy whose confirmation resolved no
address at all (empty event list, `deployed_address_from_event = none`)
still commits a registry entry — with the defaulted empty address — so a
deploy whose confirmation did not succeed does commit an entry. -/
theorem C3_counterexample :
    (l1x_evm_deploy_contract oracleOkNoEvents (some emptyRegistry) cmdNoForce
        key64 "00").deployed_address_from_event = none ∧
    (l1x_evm_deploy_contract oracleOkNoEvents (some emptyRegistry) cmdNoForce
        key64 "00").registry
      = some { l1x_vm := [],
               l1x_evm := [("art",
                 { deploy_hash := "deadbeef",
                   deploy_address := dq ++ "0x" ++ dq,
                   instances := [] })] } := by
  exact ⟨rfl, rfl⟩

/-- Witness for C3 (amended): a failed nonce fetch leaves the concrete
registry file untouched. -/
theorem C3_witness :
    (l1x_ebpf_deploy_contract oracleErr (some regArt) cmdNoForce key64
        []).result
      = .error "L1X Submit Transaction Failed: Unable to get nounce net" ∧
    (l1x_ebpf_deploy_contract oracleErr (some regArt) cmdNoForce key64
        []).registry = some regArt :=
  ⟨rfl,
   (C3_amended oracleErr (some regArt) cmdNoForce key64 [] "00" ""
      "L1X Submit Transaction Failed: Unable to get nounce net").1 rfl⟩

/-- C4: applying the ebpf-init registry update for an artifact with no
deploy entry in the `l1x_vm` table fails fatally (the modelled `panic!`,
never a success or a warning) and leaves the persisted registry file
unmodified. -/
theorem C4_init_without_deploy_fails
    (file : Option L1XVMContractAddressRegistry)
    (a cid h addr : String)
    (hmiss : (file.getD emptyRegistry).l1x_vm.find? a = none) :
    (∃ e, update_toolkit_contract_address_registry file
      (.L1XEBPF_INIT a cid h addr) = .error e) ∧
    registry_file_after_update file (.L1XEBPF_INIT a cid h addr) = file := by
  have hmiss' :
      (match file with
        | some c => c
        | none => emptyRegistry).l1x_vm.find? a = none := by
    cases file <;> simpa using hmiss
  unfold registry_file_after_update update_toolkit_contract_address_registry
  simp only [hmiss']
  exact ⟨⟨_, rfl⟩, trivial⟩

/-- Witness for C4: artifact `zz` is absent from the concrete registry and
the ebpf-init update leaves the file exactly as it was. -/
theorem C4_witness :
    ((some regArt).getD emptyRegistry).l1x_vm.find? "zz" = none ∧
    registry_file_after_update (some regArt)
      (.L1XEBPF_INIT "zz" "c" "h" "a") = some regArt :=
  ⟨rfl,
   (C4_init_without_deploy_fails (some regArt) "zz" "c" "h" "a" rfl).2⟩

/-! ### Lookup/insert interaction for the frame claim -/

/-- Looking up the inserted key finds the inserted value. -/
theorem AssocMap.find?_insert_self {β : Type} (m : AssocMap String β)
    (k : String) (v : β) : (m.insert k v).find? k = some v := by
  induction m with
  | nil => simp [AssocMap.insert, AssocMap.find?]
  | cons p rest ih =>
    obtain ⟨k', v'⟩ := p
    by_cases hk : k' = k
    · subst hk
      simp [AssocMap.insert, AssocMap.find?]
    · simp [AssocMap.insert, AssocMap.find?, hk, ih]

/-- Insertion does not change the value found at any other key. -/
theorem AssocMap.find?_insert_ne {β : Type} (m : AssocMap String β)
    (k b : String) (v : β) (hne : b ≠ k) :
    (m.insert k v).find? b = m.find? b := by
  have hkb : k ≠ b := fun hc => hne hc.symm
  induction m with
  | nil => simp [AssocMap.insert, AssocMap.find?, hkb]
  | cons p rest ih =>
    obtain ⟨k', v'⟩ := p
    by_cases hk : k' = k
    · subst hk
      simp [AssocMap.insert, AssocMap.find?, hkb]
    · simp [AssocMap.insert, AssocMap.find?, hk, ih]

/-- C10: the ebpf-deploy registry update replaces the artifact's whole
`l1x_vm` entry with a fresh one whose instance map is empty (erasing every
previously recorded instance), and leaves every other artifact of the
`l1x_vm` table and the entire `l1x_evm` table unchanged. -/
theorem C10_ebpf_deploy_replaces_entry
    (file : Option L1XVMContractAddressRegistry)
    (a h addr b : String) (hba : b ≠ a) :
    ∃ config,
      update_toolkit_contract_address_registry file
        (.L1XEBPF_DEPLOY a h addr) = .ok config ∧
      config.l1x_vm.find? a = some
        { deploy_hash := h, deploy_address := dq ++ "0x" ++ addr ++ dq,
          instances := [] } ∧
      config.l1x_vm.find? b = (file.getD emptyRegistry).l1x_vm.find? b ∧
      config.l1x_evm = (file.getD emptyRegistry).l1x_evm := by
  cases file with
  | none =>
    refine ⟨_, rfl, ?_, ?_, rfl⟩
    · exact AssocMap.find?_insert_self _ _ _
    · exact AssocMap.find?_insert_ne _ _ _ _ hba
  | some c =>
    refine ⟨_, rfl, ?_, ?_, rfl⟩
    · exact AssocMap.find?_insert_self _ _ _
    · exact AssocMap.find?_insert_ne _ _ _ _ hba

/-- Witness for C10: re-deploying artifact `art` (which has a recorded
instance in the concrete registry) yields a fresh entry with an empty
instance map and leaves `other` lookups and the EVM table unchanged. -/
theorem C10_witness :
    ("other" : String) ≠ "art" ∧
    ∃ config,
      update_toolkit_contract_address_registry (some regArt)
        (.L1XEBPF_DEPLOY "art" "h9" "beef") = .ok config ∧
      config.l1x_vm.find? "art" = some
        { deploy_hash := "h9", deploy_address := dq ++ "0xbeef" ++ dq,
          instances := [] } ∧
      config.l1x_vm.find? "other"
        = ((some regArt).getD emptyRegistry).l1x_vm.find? "other" ∧
      config.l1x_evm = ((some regArt).getD emptyRegistry).l1x_evm :=
  ⟨by decide,
   C10_ebpf_deploy_replaces_entry (some regArt) "art" "h9" "beef" "other"
     (by decide)⟩

/-- C5: for a `NativeTokenTransfer` the signed payload is the SHA-256 hash
of the JSON serialization of the struct `{nonce, transaction_type,
fee_limit}`; for every other transaction type it is the RPC-protocol
encoding of `(transaction_type, fee_limit, nonce)` produced by the
protocol signer (not JSON) — and the branch is selected solely by the
transaction-type tag. -/
theorem C5_signing_split (txn : Transaction) (key : String)
    (fee nonce : Nat) (kb : List Nat) (tt : RpcTransactionType)
    (req : SubmitTransactionRequest)
    (hkey : hexDecode key = .ok kb)
    (htt : txn.toRpc = .ok tt)
    (hreq : get_submit_txn_req txn key fee nonce = .ok req) :
    (∀ a m, tt = .nativeTokenTransfer a m →
      req.signature = .ecdsaSha256 kb (encodeNativePayload
        { nonce := nonce,
          transaction_type := .nativeTokenTransfer a (toString m),
          fee_limit := fee })) ∧
    (isNativeTokenTransfer tt = false →
      req.signature = .protocolSign kb tt fee nonce) := by
  unfold get_submit_txn_req at hreq
  rw [hkey] at hreq
  simp only [] at hreq
  by_cases h32 : kb.length = 32
  · simp only [h32, if_true] at hreq
    rw [htt] at hreq
    simp only [] at hreq
    cases tt with
    | nativeTokenTransfer a m =>
      simp only [isNativeTokenTransfer] at hreq
      by_cases h20 : a.length = 20
      · simp only [h20, if_true] at hreq
        cases hreq
        constructor
        · intro a' m' heq
          cases heq
          rfl
        · intro hfalse
          simp [isNativeTokenTransfer] at hfalse
      · simp only [h20, if_false] at hreq
        simp at hreq
    | smartContractDeployment at_ ct code =>
      simp only [isNativeTokenTransfer, l1x_rpc_sign] at hreq
      cases hreq
      constructor
      · intro a' m' heq
        cases heq
      · intro _
        rfl
    | smartContractInit addr args =>
      simp only [isNativeTokenTransfer, l1x_rpc_sign] at hreq
      cases hreq
      constructor
      · intro a' m' heq
        cases heq
      · intro _
        rfl
    | smartContractFunctionCall ca f args =>
      simp only [isNativeTokenTransfer, l1x_rpc_sign] at hreq
      cases hreq
      constructor
      · intro a' m' heq
        cases heq
      · intro _
        rfl
  · simp only [h32, if_false] at hreq
    simp at hreq

/-- A concrete native transfer transaction (20-byte address, amount 5). -/
def nativeTxn : Transaction :=
  .nativeTokenTransfer (List.replicate 20 0) 5

/-- Witness for C5 at a concrete native transfer: the signature is the
ECDSA-over-SHA-256 of the JSON payload. -/
theorem C5_witness :
    hexDecode key64 = .ok (List.replicate 32 17) ∧
    ∃ req, get_submit_txn_req nativeTxn key64 100 9 = .ok req ∧
      req.signature = .ecdsaSha256 (List.replicate 32 17)
        (encodeNativePayload
          { nonce := 9,
            transaction_type :=
              .nativeTokenTransfer (List.replicate 20 0) (toString 5),
            fee_limit := 100 }) := by
  refine ⟨rfl, _, rfl, ?_⟩
  exact (C5_signing_split nativeTxn key64 100 9 (List.replicate 32 17)
    (.nativeTokenTransfer (List.replicate 20 0) 5) _ rfl rfl rfl).1
    (List.replicate 20 0) 5 rfl

/-- Read-only oracle: the envelope carried a result object with
contract-level `status = 1` and two result bytes. -/
def roOracleStatus1 : ReadOnlyOracle :=
  { callResult := .ok (some (.obj
      [("status", .num 1), ("result", .arr [.num 1, .num 2])])) }

/-- Read-only oracle: the envelope carried no result object. -/
def roOracleNone : ReadOnlyOracle := { callResult := .ok none }

/-- C6 counterexample: a read-only response carrying contract-level
`status = 1` with result bytes `[1, 2]` is printed as status 0 with the
raw bytes hex-encoded — not as the sentinel object. -/
theorem C6_counterexample :
    l1x_vm_read_only_call roOracleStatus1 "" ""
      = .ok { status := 0, message := "0102" } ∧
    ({ status := 0, message := "0102" } : L1XVmTxnResponse)
      ≠ { status := 1, message := "InValid Inner Response" } :=
  ⟨rfl, by decide⟩

/-- C6 (amended): the sentinel (`status = 1`, `"InValid Inner Response"`)
is printed exactly when the JSON-RPC envelope carries no result object;
when a result object is present, its contract-level `status` field is
never inspected and its `result` bytes are printed hex-encoded with
status 0 regardless of that field. -/
theorem C6_read_only_amended (o : ReadOnlyOracle) (ca fp : String)
    (A P : List Nat) (j : Json) (bs : List Nat)
    (hca : hexDecode (clean_string ca) = .ok A)
    (hfp : hexDecode (clean_string fp) = .ok P) :
    (o.callResult = .ok none →
      l1x_vm_read_only_call o ca fp
        = .ok { status := 1, message := "InValid Inner Response" }) ∧
    (o.callResult = .ok (some j) →
      jsonToByteVec (j.index "result") = .ok bs →
      l1x_vm_read_only_call o ca fp
        = .ok { status := 0, message := hexEncode bs }) := by
  unfold l1x_vm_read_only_call create_ronly_txn_function_call
  simp only [hca, hfp]
  constructor
  · intro h
    simp only [h]
  · intro h hb
    simp only [h, hb]

/-- Witness for C6 (amended): with no result object, the sentinel is
printed. -/
theorem C6_witness :
    hexDecode (clean_string "00") = .ok [0] ∧
    l1x_vm_read_only_call roOracleNone "00" ""
      = .ok { status := 1, message := "InValid Inner Response" } :=
  ⟨rfl,
   (C6_read_only_amended roOracleNone "00" "" [0] [] Json.null [] rfl
      rfl).1 rfl⟩

/-- The ebpf-deploy registry update always succeeds and inserts the fresh
entry. -/
theorem registry_after_ebpf_deploy
    (f : Option L1XVMContractAddressRegistry) (a h addr : String) :
    registry_file_after_update f (.L1XEBPF_DEPLOY a h addr)
      = some { f.getD emptyRegistry with
          l1x_vm := (f.getD emptyRegistry).l1x_vm.insert a
            { deploy_hash := h,
              deploy_address := dq ++ "0x" ++ addr ++ dq,
              instances := [] } } := by
  cases f <;> rfl

/-- The evm-deploy registry update always succeeds and inserts the fresh
entry with the cleaned address. -/
theorem registry_after_evm_deploy
    (f : Option L1XVMContractAddressRegistry) (a h addr : String) :
    registry_file_after_update f (.L1XEVM_DEPLOY a h addr)
      = some { f.getD emptyRegistry with
          l1x_evm := (f.getD emptyRegistry).l1x_evm.insert a
            { deploy_hash := h,
              deploy_address := dq ++ "0x" ++ clean_address_string addr ++ dq,
              instances := [] } } := by
  cases f <;> rfl

/-- C8: on a successful ebpf deploy the registry address is exactly the
`contract_address` of the direct `submitTransaction` response (and the
registry outcome does not depend on the polled events at all); on a
successful EVM deploy the registry address is derived only from the
`address` field extracted from the first event's JSON (and the registry
outcome does not depend on the direct response's `contract_address`
field). -/
theorem C8_persisted_addresses (o : DeployOracle)
    (file : Option L1XVMContractAddressRegistry)
    (cmd : L1XVmInstallContractCmd) (key : String)
    (artifactBytes : List Nat) (hex_code : String)
    (resp : SubmitTransactionResponse) (events : List EventBlob)
    (extracted : Option String) :
    ((l1x_ebpf_deploy_contract o file cmd key artifactBytes).result
        = .ok resp →
      ∃ config,
        (l1x_ebpf_deploy_contract o file cmd key artifactBytes).registry
          = some config ∧
        config.l1x_vm.find? cmd.artifact_id = some
          { deploy_hash := resp.hash,
            deploy_address :=
              dq ++ "0x" ++ resp.contract_address.getD "" ++ dq,
            instances := [] }) ∧
    (∀ ev1 ev2,
      (l1x_ebpf_deploy_contract { o with eventsResult := .ok ev1 } file cmd
        key artifactBytes).registry
      = (l1x_ebpf_deploy_contract { o with eventsResult := .ok ev2 } file
        cmd key artifactBytes).registry) ∧
    (o.eventsResult = .ok events →
      evm_scan_events events none = .ok extracted →
      (l1x_evm_deploy_contract o file cmd key hex_code).result = .ok resp →
      ∃ config,
        (l1x_evm_deploy_contract o file cmd key hex_code).registry
          = some config ∧
        config.l1x_evm.find? cmd.artifact_id = some
          { deploy_hash := resp.hash,
            deploy_address :=
              dq ++ "0x" ++ clean_address_string (extracted.getD "") ++ dq,
            instances := [] }) ∧
    (∀ h2 ca1 ca2,
      (l1x_evm_deploy_contract
        { o with submitResult := .ok { hash := h2, contract_address := ca1 } }
        file cmd key hex_code).registry
      = (l1x_evm_deploy_contract
        { o with submitResult := .ok { hash := h2, contract_address := ca2 } }
        file cmd key hex_code).registry) := by
  obtain ⟨nr, sr, er⟩ := o
  refine ⟨?_, ?_, ?_, ?_⟩
  · intro h
    unfold l1x_ebpf_deploy_contract at h ⊢
    rcases hst : submit_transaction ⟨nr, sr, er⟩ key cmd.fee_limit
      (.ok (.smartContractDeployment .PRIVATE .L1XVM
        (.hex artifactBytes))) with ⟨r, tr⟩
    simp only [hst] at h ⊢
    cases r with
    | error e2 => exact absurd h (by simp)
    | ok resp2 =>
      cases hev : er with
      | error e2 => simp only [hev] at h; exact absurd h (by simp)
      | ok events2 =>
        simp only [hev] at h ⊢
        have hresp : resp2 = resp := by
          simpa using h
        subst hresp
        rw [registry_after_ebpf_deploy]
        exact ⟨_, rfl, AssocMap.find?_insert_self _ _ _⟩
  · intro ev1 ev2
    unfold l1x_ebpf_deploy_contract
    rcases hst : submit_transaction ⟨nr, sr, .ok ev1⟩ key cmd.fee_limit
      (.ok (.smartContractDeployment .PRIVATE .L1XVM
        (.hex artifactBytes))) with ⟨r, tr⟩
    have hst2 : submit_transaction ⟨nr, sr, .ok ev2⟩ key cmd.fee_limit
      (.ok (.smartContractDeployment .PRIVATE .L1XVM
        (.hex artifactBytes))) = (r, tr) := hst
    simp only [hst, hst2]
  · intro hev hscan h
    unfold l1x_evm_deploy_contract at h ⊢
    simp only [] at h ⊢
    cases hcode : hexDecode (stripLeading0x hex_code) with
    | error e2 => simp only [hcode] at h; exact absurd h (by simp)
    | ok codeBytes =>
      simp only [hcode] at h ⊢
      cases hn : nr with
      | error e2 => simp only [hn] at h; exact absurd h (by simp)
      | ok nonce =>
        simp only [hn] at h ⊢
        cases hreq : get_submit_txn_req
          (.smartContractDeployment .PUBLIC .EVM (.hex codeBytes)) key
          cmd.fee_limit (nonce + 1) with
        | error e2 => simp only [hreq] at h; exact absurd h (by simp)
        | ok request =>
          simp only [hreq] at h ⊢
          cases hsr : sr with
          | error e2 => simp only [hsr] at h; exact absurd h (by simp)
          | ok resp2 =>
            simp only [hsr] at h ⊢
            have hev' : er = .ok events := hev
            simp only [hev'] at h ⊢
            simp only [hscan] at h ⊢
            have hresp : resp2 = resp := by simpa using h
            subst hresp
            rw [registry_after_evm_deploy]
            exact ⟨_, rfl, AssocMap.find?_insert_self _ _ _⟩
  · intro h2 ca1 ca2
    unfold l1x_evm_deploy_contract
    simp only []
    cases hcode : hexDecode (stripLeading0x hex_code) with
    | error e2 => rfl
    | ok codeBytes =>
      cases hn : nr with
      | error e2 => rfl
      | ok nonce =>
        cases hreq : get_submit_txn_req
          (.smartContractDeployment .PUBLIC .EVM (.hex codeBytes)) key
          cmd.fee_limit (nonce + 1) with
        | error e2 => simp only [hreq]
        | ok request =>
          simp only [hreq]
          cases hev : er with
          | error e2 => rfl
          | ok events2 =>
            cases hscan : evm_scan_events events2 none with
            | error e2 => simp only [hscan]
            | ok acc => simp only [hscan]

/-- Witness for C8: the concrete successful ebpf deploy persists the
direct response's `contract_address`. -/
theorem C8_witness :
    (l1x_ebpf_deploy_contract oracleOkNoEvents (some regArt) cmdNoForce
        key64 []).result
      = .ok { hash := "deadbeef", contract_address := some "aa11" } ∧
    ∃ config,
      (l1x_ebpf_deploy_contract oracleOkNoEvents (some regArt) cmdNoForce
        key64 []).registry = some config ∧
      config.l1x_vm.find? cmdNoForce.artifact_id = some
        { deploy_hash := "deadbeef",
          deploy_address := dq ++ "0x" ++
            ((some "aa11").getD "") ++ dq,
          instances := [] } :=
  ⟨rfl,
   (C8_persisted_addresses oracleOkNoEvents (some regArt) cmdNoForce key64
      [] "00" { hash := "deadbeef", contract_address := some "aa11" } []
      none).1 rfl⟩

/-- An event blob whose JSON is an object with no `address` field. -/
def eventNoAddress : EventBlob :=
  { bytes := [123, 125], parsed := .ok (.obj []) }

/-- Oracle for a run whose event poll returns one `address`-less event. -/
def oracleOkOneEvent : DeployOracle :=
  { nonceResult := .ok 5,
    submitResult := .ok { hash := "deadbeef", contract_address := some "aa11" },
    eventsResult := .ok [eventNoAddress] }

/-- C9 counterexample: when the first event's JSON object has no `address`
field, the extractor does not report a no-address outcome — it yields the
serialized JSON text `"null"` as if an address had been resolved (and the
flow persists it). -/
theorem C9_counterexample :
    evm_scan_events [eventNoAddress] none = .ok (some "null") ∧
    (l1x_evm_deploy_contract oracleOkOneEvent (some emptyRegistry)
        cmdNoForce key64 "00").deployed_address_from_event = some "null" ∧
    (some "null" : Option String) ≠ none :=
  ⟨rfl, rfl, by decide⟩

/-- Once an address accumulator is set, scanning further (parseable)
events keeps it. -/
theorem scan_preserves_some (rest : List EventBlob) (a : String)
    (hrest : ∀ e ∈ rest, ∃ j, e.parsed = .ok j) :
    evm_scan_events rest (some a) = .ok (some a) := by
  induction rest with
  | nil => rfl
  | cons e t ih =>
    obtain ⟨j, hj⟩ := hrest e (by simp)
    unfold evm_scan_events
    rw [hj]
    exact ih (fun x hx => hrest x (by simp [hx]))

/-- C9 (amended): an empty event list makes the extractor yield the
distinct no-address outcome `.ok none` (not an error, and distinguishable
from a hard RPC `.error`); but a first event whose JSON object lacks the
`address` field does not yield a no-address outcome — the extractor
succeeds with the string `"null"` (the serialization of JSON null) as the
resolved address. -/
theorem C9_extractor_amended (b : List Nat) (fs : List (String × Json))
    (rest : List EventBlob)
    (hnoaddr : fs.lookup "address" = none)
    (hrest : ∀ e ∈ rest, ∃ j, e.parsed = .ok j) :
    evm_scan_events [] none = .ok none ∧
    evm_scan_events ({ bytes := b, parsed := .ok (.obj fs) } :: rest) none
      = .ok (some "null") := by
  constructor
  · rfl
  · unfold evm_scan_events
    simp only []
    rw [show (Json.obj fs).index "address" = Json.null by
      simp [Json.index, hnoaddr]]
    exact scan_preserves_some rest _ hrest

/-- Witness for C9 (amended) at a concrete one-field object without
`address`. -/
theorem C9_witness :
    ([("x", Json.null)].lookup "address" = (none : Option Json)) ∧
    evm_scan_events
        [{ bytes := [], parsed := .ok (.obj [("x", Json.null)]) }] none
      = .ok (some "null") :=
  ⟨rfl,
   (C9_extractor_amended [] [("x", Json.null)] [] rfl
      (fun e he => absurd he (List.not_mem_nil e))).2⟩
